import Mathlib

/-!
# Two-pane terminal file browser (`src/main.c`): navigation core

A shallow embedding of `scan_directory`, `navigate`, `get_file_info` and
`draw_ui`.  The globals `current_path`, `files`, `file_count` and `selected`
become one record that is passed explicitly; the operating system answers
(`stat`, `opendir`/`readdir`, `chdir` followed by `getcwd`, `ctime`) are the
fields of an environment record, so that every theorem quantifies over all
filesystem behaviours.
-/

namespace FileBrowser

/-! ## Constants -/

/-- `#define MAX_FILES 1024`. -/
def MAX_FILES : Nat := 1024

/-- `#define MAX_PATH 4096`. -/
def MAX_PATH : Nat := 4096

/-- `#define KEY_ENTER '\n'` (the source overrides the curses value). -/
def KEY_ENTER : Int := 10

/-- Curses key code `KEY_DOWN` (octal 0402 in `ncurses.h`). -/
def KEY_DOWN : Int := 258

/-- Curses key code `KEY_UP` (octal 0403 in `ncurses.h`). -/
def KEY_UP : Int := 259

/-- Curses key code `KEY_BACKSPACE` (octal 0407 in `ncurses.h`). -/
def KEY_BACKSPACE : Int := 263

/-- The character `'q'`. -/
def KEY_q : Int := 113

/-- `S_IFMT` of `sys/stat.h` (octal 0170000). -/
def S_IFMT : Nat := 61440

/-- `S_IFDIR` of `sys/stat.h` (octal 0040000). -/
def S_IFDIR : Nat := 16384

/-- The macro `S_ISDIR(m)`: `(m & S_IFMT) == S_IFDIR`. -/
def S_ISDIR (m : Nat) : Bool := (m &&& S_IFMT) == S_IFDIR

/-! ## Operating system interface -/

/-- The fields of `struct stat` that the program reads. -/
structure Stat where
  st_size : Int
  st_mode : Nat
  st_mtime : Int
  st_uid : Nat
  st_gid : Nat
deriving DecidableEq

/-- Answers of the operating system during one call of the program's
functions.
* `stat p` is `none` when `stat(p, &st)` returns non-zero, else the record;
* `opendir p` is `none` when `opendir(p)` returns `NULL`, else the names that
  successive `readdir` calls yield, in that order;
* `getcwd` is what `getcwd` reports when no `chdir` preceded it (startup);
* `chdir_getcwd p` is what `getcwd` reports right after `chdir(p)`, whether
  the change succeeded or not;
* `ctime t` is the text `ctime(&t)` returns. -/
structure Env where
  stat : String → Option Stat
  opendir : String → Option (List String)
  getcwd : String
  chdir_getcwd : String → String
  ctime : Int → String

/-! ## Global state -/

/-- The globals of `main.c`.  `files` holds the live slots
`files[0 .. file_count-1]`; slots at or beyond `file_count` hold `NULL` or a
freed pointer and are not part of the record. -/
structure State where
  current_path : String
  files : List String
  selected : Int
deriving DecidableEq

/-- The global `file_count`: number of live slots of `files`. -/
def State.file_count (s : State) : Int := (s.files.length : Int)

/-- Reading `files[selected]`: `none` when the index is outside
`[0, file_count)`, where the C read hits `NULL` or freed memory. -/
def State.entry (s : State) : Option String :=
  if 0 ≤ s.selected then s.files.get? s.selected.toNat else none

/-- Text left by `snprintf(dst, size, ...)` for the full text `t`: at most
`size - 1` characters are kept (nothing is written when `size = 0`). -/
def snprintf_text (size : Nat) (t : String) : String :=
  String.mk (t.data.take (size - 1))

/-- `snprintf(path, sizeof(path), "%s/%s", dir, name)` with `path[MAX_PATH]`. -/
def make_path (dir name : String) : String :=
  snprintf_text MAX_PATH (dir ++ "/" ++ name)

/-! ## `scan_directory` -/

/-- The test `strcmp(d_name, ".") == 0 || strcmp(d_name, "..") == 0`. -/
def is_dot (name : String) : Bool := name == "." || name == ".."

/-- The `while` loop of `scan_directory`: the first argument holds the names
`readdir` still has to yield, `acc` the live slots so far
(`file_count = acc.length`).  An entry is read first, then the capacity test
is made. -/
def scan_loop : List String → List String → List String
  | [], acc => acc
  | e :: rest, acc =>
    if acc.length < MAX_FILES then
      if is_dot e then scan_loop rest acc else scan_loop rest (acc ++ [e])
    else acc

/-- `scan_directory(path)`: the old list is freed and `file_count` set to 0
before `opendir`; when `opendir` fails the function returns at once. -/
def scan_directory (env : Env) (path : String) (s : State) : State :=
  match env.opendir path with
  | none => { s with files := [] }
  | some names => { s with files := scan_loop names [] }

/-! ## `navigate` -/

/-- Result of one call of `navigate`. -/
inductive Outcome where
  /-- The call returned; the globals are as given. -/
  | ok (s : State)
  /-- The call ran `endwin(); exit(0)`. -/
  | exited
  /-- The call read `files[selected]` outside `[0, file_count)`:
  undefined behaviour. -/
  | oob
deriving DecidableEq

/-- An operating system call made by `navigate`. -/
inductive Call where
  | stat (p : String)
  | chdir (p : String)
  | getcwd
  | opendir (p : String)
deriving DecidableEq

/-- What one call of `navigate` does: its outcome and the operating system
calls it made, in order. -/
structure Ran where
  out : Outcome
  calls : List Call
deriving DecidableEq

/-- The body shared by both directory changes: `chdir(path)`, then
`getcwd(current_path, ...)`, `scan_directory(current_path)`, `selected = 0`. -/
def change_dir (env : Env) (path : String) (s : State) : State :=
  let s1 := { s with current_path := env.chdir_getcwd path }
  let s2 := scan_directory env s1.current_path s1
  { s2 with selected := 0 }

/-- The operating system calls of that body. -/
def change_dir_calls (env : Env) (path : String) : List Call :=
  [.chdir path, .getcwd, .opendir (env.chdir_getcwd path)]

/-- `navigate(key)`, the `switch` over the key code. -/
def navigate (env : Env) (key : Int) (s : State) : Ran :=
  if key = KEY_UP then
    ⟨.ok (if s.selected > 0 then { s with selected := s.selected - 1 } else s), []⟩
  else if key = KEY_DOWN then
    ⟨.ok (if s.selected < s.file_count - 1 then { s with selected := s.selected + 1 } else s), []⟩
  else if key = KEY_ENTER then
    match s.entry with
    | none => ⟨.oob, []⟩
    | some name =>
      let path := make_path s.current_path name
      match env.stat path with
      | some st =>
        if S_ISDIR st.st_mode then
          ⟨.ok (change_dir env path s), .stat path :: change_dir_calls env path⟩
        else ⟨.ok s, [.stat path]⟩
      | none => ⟨.ok s, [.stat path]⟩
  else if key = KEY_BACKSPACE then
    ⟨.ok (change_dir env (make_path s.current_path "..") s),
      change_dir_calls env (make_path s.current_path "..")⟩
  else if key = KEY_q then ⟨.exited, []⟩
  else ⟨.ok s, []⟩

/-- The state set up by `main` before its loop: `selected = 0`, `file_count = 0`,
then `getcwd(current_path, ...)` and `scan_directory(current_path)`. -/
def startup (env : Env) : State :=
  scan_directory env env.getcwd { current_path := env.getcwd, files := [], selected := 0 }

/-- The main loop over a finite sequence of key events, each with the
operating system answers in force while it is handled. -/
def run : State → List (Env × Int) → Outcome
  | s, [] => .ok s
  | s, (env, key) :: rest =>
    match (navigate env key s).out with
    | .ok s1 => run s1 rest
    | .exited => .exited
    | .oob => .oob

/-- The selection-bounds invariant. -/
def Inv (s : State) : Prop :=
  0 ≤ s.selected ∧ s.file_count ≤ 1024 ∧ (s.files ≠ [] → s.selected < s.file_count)

/-! ## `get_file_info` -/

/-- The terminating byte of a C string. -/
def NUL : Char := '\x00'

/-- Memory starting at the address `buf`: `bytes i` is the byte at `buf + i`
(the buffer proper is `[0, buflen)`, what lies beyond is adjacent memory) and
`hi` is one past the highest offset written so far (`0` when nothing was). -/
structure Mem where
  bytes : Nat → Char
  hi : Nat

/-- Store the bytes `w` at offsets `off, off+1, ...`. -/
def Mem.store (m : Mem) (off : Nat) (w : List Char) : Mem where
  bytes := fun i => if off ≤ i ∧ i < off + w.length then w.getD (i - off) NUL else m.bytes i
  hi := if w.length = 0 then m.hi else max m.hi (off + w.length)

/-- The bytes at offsets `off, ..., off + len - 1`. -/
def Mem.read (m : Mem) (off len : Nat) : List Char :=
  (List.range len).map (fun i => m.bytes (off + i))

/-- `snprintf(buf + off, size, ...)` whose full output is `t`: when `size > 0`
the first `size - 1` characters of `t` and a `NUL` are stored; the return value
is the length of `t` whatever was stored. -/
def snprintf (m : Mem) (off size : Nat) (t : String) : Mem × Nat :=
  if size = 0 then (m, t.length)
  else (m.store off (t.data.take (size - 1) ++ [NUL]), t.length)

/-- Output of `%d` and `%lld` for a signed value. -/
def fmt_d (i : Int) : String :=
  if i < 0 then "-" ++ Nat.repr i.natAbs else Nat.repr i.toNat

/-- Output of `%o`. -/
def fmt_o (n : Nat) : String := String.mk (Nat.toDigits 8 n)

/-- A 32-bit unsigned value (`uid_t`, `gid_t`) as `%d` reads it. -/
def as_int (u : Nat) : Int :=
  if u % 2 ^ 32 < 2 ^ 31 then ((u % 2 ^ 32 : Nat) : Int) else ((u % 2 ^ 32 : Nat) : Int) - 2 ^ 32

/-- `"Size: %lld bytes\n"`. -/
def line_size (st : Stat) : String := "Size: " ++ fmt_d st.st_size ++ " bytes\n"

/-- `"Permissions: %o\n"` of `st_mode & 0777`. -/
def line_perm (st : Stat) : String := "Permissions: " ++ fmt_o (st.st_mode &&& 0o777) ++ "\n"

/-- `"Last modified: %s"` of `ctime(&st.st_mtime)`. -/
def line_mtime (env : Env) (st : Stat) : String := "Last modified: " ++ env.ctime st.st_mtime

/-- `"Owner UID: %d\n"`. -/
def line_uid (st : Stat) : String := "Owner UID: " ++ fmt_d (as_int st.st_uid) ++ "\n"

/-- `"Owner GID: %d\n"`. -/
def line_gid (st : Stat) : String := "Owner GID: " ++ fmt_d (as_int st.st_gid) ++ "\n"

/-- `"Is Directory: %s\n"` of `S_ISDIR(st.st_mode) ? "Yes" : "No"`. -/
def line_dir (st : Stat) : String :=
  "Is Directory: " ++ (if S_ISDIR st.st_mode then "Yes" else "No") ++ "\n"

/-- One statement `index = index + snprintf(buf + index, buflen, ...)`; the
pair is the memory and `index`.  The size handed to `snprintf` is `buflen`
itself, as in the source. -/
def emit (buflen : Nat) (r : Mem × Nat) (t : String) : Mem × Nat :=
  ((snprintf r.1 r.2 buflen t).1, r.2 + (snprintf r.1 r.2 buflen t).2)

/-- `get_file_info(path, buf, buflen)`: the memory at `buf` afterwards and
the final value of the local `index`. -/
def get_file_info (env : Env) (path : String) (m : Mem) (buflen : Nat) : Mem × Nat :=
  match env.stat path with
  | none => ((snprintf m 0 buflen "Error retrieving info").1, 0)
  | some st =>
    let r1 := emit buflen (m, 0) (line_size st)
    let r2 := emit buflen r1 (line_perm st)
    let r3 := emit buflen r2 (line_mtime env st)
    let r4 := emit buflen r3 (line_uid st)
    let r5 := emit buflen r4 (line_gid st)
    emit buflen r5 (line_dir st)

/-- The whole text `get_file_info` formats for `path`, before any cut. -/
def full_text (env : Env) (path : String) : String :=
  match env.stat path with
  | none => "Error retrieving info"
  | some st =>
    line_size st ++ line_perm st ++ line_mtime env st ++ line_uid st ++ line_gid st ++ line_dir st

/-! ## `draw_ui` -/

/-- The C string starting at offset `off`, read inside a buffer with `fuel`
bytes left. -/
def cstr (bytes : Nat → Char) : Nat → Nat → List Char
  | _, 0 => []
  | off, fuel + 1 => if bytes off = NUL then [] else bytes off :: cstr bytes (off + 1) fuel

/-- The tokens `strtok(info, "\n")`, `strtok(NULL, "\n")`, ... return: the
maximal runs without a newline, empty runs skipped.  `cur` is the run being
collected. -/
def strtok_lines : List Char → List Char → List String
  | [], cur => if cur = [] then [] else [String.mk cur]
  | c :: rest, cur =>
    if c = '\n' then
      if cur = [] then strtok_lines rest [] else String.mk cur :: strtok_lines rest []
    else strtok_lines rest (cur ++ [c])

/-- What `draw_ui` puts on the two panes. -/
structure Frame where
  /-- Left pane rows from row 1 down: the name and whether it is in reverse video. -/
  left : List (String × Bool)
  /-- Right pane row 1: `"Selected: %s"`. -/
  header : String
  /-- Right pane rows from row 2 down. -/
  info : List String
deriving DecidableEq

/-- Result of one call of `draw_ui`. -/
inductive Drawn where
  /-- Both panes were drawn. -/
  | frame (f : Frame)
  /-- The call read `files[selected]` outside `[0, file_count)`. -/
  | oob
  /-- The call to `get_file_info` wrote past `info[256]`. -/
  | overflow
deriving DecidableEq

/-- `draw_ui(left, right, height, width)`.  `junk` is the content of the
uninitialised local `info[256]`. -/
def draw_ui (env : Env) (junk : Nat → Char) (height : Int) (s : State) : Drawn :=
  let rows := (s.files.take (height - 2).toNat).enum.map
    (fun p => (p.2, decide ((p.1 : Int) = s.selected)))
  match s.entry with
  | none => .oob
  | some name =>
    let path := make_path s.current_path name
    let r := get_file_info env path ⟨junk, 0⟩ 256
    if 256 < r.1.hi then .overflow
    else
      .frame
        { left := rows
          header := "Selected: " ++ name
          info := (strtok_lines (cstr r.1.bytes 0 256) []).take (height - 3).toNat }

/-! ## Paths and sample data -/

/-- The components of a path: the runs between slashes.  `cur` is the run
being collected. -/
def components_aux : List Char → List Char → List String
  | [], cur => [String.mk cur]
  | c :: rest, cur =>
    if c = '/' then String.mk cur :: components_aux rest [] else components_aux rest (cur ++ [c])

/-- The components of a path. -/
def components (p : String) : List String := components_aux p.data []

/-- The path is the root or names a descendant of the root: it is absolute
and no component is the parent marker. -/
def under_root (p : String) : Bool :=
  p.data.head? == some '/' && !(components p).contains ".."

/-- A small filesystem: `/home` holds the file `a.txt` and the directory
`sub`, which holds `x`; the parent of `/` is `/`. -/
def demo_env : Env where
  stat := fun p =>
    if p = "/home/sub" then some ⟨4096, 0o040755, 0, 1000, 1000⟩
    else if p = "/home/a.txt" then some ⟨12, 0o100644, 0, 1000, 1000⟩
    else if p = "/" then some ⟨4096, 0o040755, 0, 0, 0⟩
    else none
  opendir := fun p =>
    if p = "/home" then some [".", "..", "a.txt", "sub"]
    else if p = "/home/sub" then some [".", "..", "x"]
    else if p = "/" then some [".", "..", "home"]
    else none
  getcwd := "/home"
  chdir_getcwd := fun p =>
    if p = "/home/sub" then "/home/sub"
    else if p = "/home/.." then "/"
    else if p = "//.." then "/"
    else if p = "/home/sub/.." then "/home"
    else "/home"
  ctime := fun _ => "Thu Jan  1 00:00:00 1970\n"

/-- A filesystem in which nothing can be opened or inspected. -/
def dead_env : Env where
  stat := fun _ => none
  opendir := fun _ => none
  getcwd := "/gone"
  chdir_getcwd := fun _ => "/gone"
  ctime := fun _ => "Thu Jan  1 00:00:00 1970\n"

/-- A filesystem whose every directory is empty: `readdir` yields only the
two pseudo-entries. -/
def empty_env : Env where
  stat := fun _ => some ⟨4096, 0o040755, 0, 1000, 1000⟩
  opendir := fun _ => some [".", ".."]
  getcwd := "/tmp/void"
  chdir_getcwd := fun _ => "/tmp/void"
  ctime := fun _ => "Thu Jan  1 00:00:00 1970\n"

/-- A filesystem whose directories can be entered but not listed. -/
def locked_env : Env where
  stat := fun _ => some ⟨4096, 0o040311, 0, 0, 0⟩
  opendir := fun _ => none
  getcwd := "/home"
  chdir_getcwd := fun p => p
  ctime := fun _ => "Thu Jan  1 00:00:00 1970\n"

/-- A directory `/big` with 1030 entries named `f` besides the two
pseudo-entries, more than `MAX_FILES`. -/
def crowded_env : Env where
  stat := fun _ => none
  opendir := fun _ => some (".." :: "." :: List.replicate 1030 "f")
  getcwd := "/big"
  chdir_getcwd := fun _ => "/big"
  ctime := fun _ => "Thu Jan  1 00:00:00 1970\n"

/-- Sixteen nested directories whose names are 254 characters long, as a
path text of 4080 characters. -/
def long_dirs : List Char := (List.replicate 16 ('/' :: List.replicate 254 'd')).flatten

/-- A working directory whose absolute name is 4086 characters long. -/
def long_cwd : String := String.mk (long_dirs ++ "/vault".data)

/-- A filesystem in which `long_cwd` holds the regular file `readme.txt` and
the directory `readme.t`, which holds `inner`; `stat` refuses every path of
`MAX_PATH` characters or more. -/
def long_env : Env where
  stat := fun p =>
    if MAX_PATH ≤ p.length then none
    else if p = long_cwd ++ "/readme.t" then some ⟨4096, 0o040755, 0, 1000, 1000⟩
    else if p = long_cwd ++ "/readme.txt" then some ⟨12, 0o100644, 0, 1000, 1000⟩
    else none
  opendir := fun p =>
    if p = long_cwd ++ "/readme.t" then some [".", "..", "inner"]
    else if p = long_cwd then some [".", "..", "readme.txt", "readme.t"]
    else none
  getcwd := long_cwd
  chdir_getcwd := fun p => if p = long_cwd ++ "/readme.t" then p else long_cwd
  ctime := fun _ => "Thu Jan  1 00:00:00 1970\n"

/-- The memory holds the bytes `l` at offsets `0, ..., l.length - 1`. -/
def Mem.Holds (m : Mem) (l : List Char) : Prop :=
  ∀ i, i < l.length → m.bytes i = l.getD i NUL

/-- Memory filled with `NUL`, nothing written yet. -/
def blank : Mem := ⟨fun _ => NUL, 0⟩

/-! ## Scanner -/

theorem scan_loop_eq (names acc : List String) (h : acc.length ≤ MAX_FILES) :
    scan_loop names acc
      = acc ++ (names.filter (fun e => !is_dot e)).take (MAX_FILES - acc.length) := by
  induction names generalizing acc with
  | nil => simp [scan_loop]
  | cons e rest ih =>
    unfold scan_loop
    by_cases hlt : acc.length < MAX_FILES
    · rw [if_pos hlt]
      by_cases hd : is_dot e = true
      · rw [if_pos hd, ih acc h]
        simp [List.filter_cons, hd]
      · rw [if_neg hd]
        have hlen : (acc ++ [e]).length ≤ MAX_FILES := by
          simp; omega
        rw [ih (acc ++ [e]) hlen]
        have hd2 : is_dot e = false := by simpa using hd
        have hk : MAX_FILES - acc.length = (MAX_FILES - (acc ++ [e]).length) + 1 := by
          simp; omega
        rw [hk]
        simp [List.filter_cons, hd2, List.take_succ_cons]
    · rw [if_neg hlt]
      have hz : MAX_FILES - acc.length = 0 := by omega
      simp [hz]

theorem is_dot_iff (e : String) : (!is_dot e) = decide (e ≠ "." ∧ e ≠ "..") := by
  unfold is_dot
  by_cases h1 : e = "." <;> by_cases h2 : e = ".." <;> simp [h1, h2]

theorem scan_files (env : Env) (path : String) (names : List String) (s : State)
    (hopen : env.opendir path = some names) :
    (scan_directory env path s).files
      = (names.filter (fun e => decide (e ≠ "." ∧ e ≠ ".."))).take MAX_FILES := by
  unfold scan_directory
  rw [hopen]
  have h := scan_loop_eq names [] (by simp)
  simp only [List.length_nil, List.nil_append, Nat.sub_zero] at h
  simp only [h]
  congr 2
  funext e
  exact is_dot_iff e

theorem scan_length_le (env : Env) (path : String) (s : State) :
    (scan_directory env path s).files.length ≤ MAX_FILES := by
  unfold scan_directory
  cases hopen : env.opendir path with
  | none => simp
  | some names =>
    have h := scan_loop_eq names [] (by simp)
    simp only [List.length_nil, List.nil_append, Nat.sub_zero] at h
    simp only [h, List.length_take]
    omega

theorem scan_no_dots (env : Env) (path : String) (s : State) :
    "." ∉ (scan_directory env path s).files ∧ ".." ∉ (scan_directory env path s).files := by
  cases hopen : env.opendir path with
  | none => simp [scan_directory, hopen]
  | some names =>
    rw [scan_files env path names s hopen]
    constructor
    · intro hmem
      have h2 := List.mem_of_mem_take hmem
      simp at h2
    · intro hmem
      have h2 := List.mem_of_mem_take hmem
      simp at h2

theorem scan_frame (env : Env) (path : String) (s : State) :
    (scan_directory env path s).current_path = s.current_path
      ∧ (scan_directory env path s).selected = s.selected := by
  unfold scan_directory
  cases env.opendir path <;> simp

/-- C4. When `opendir(path)` succeeds and `readdir` yields the names `names`,
`scan_directory` leaves as entry list the names other than `.` and `..`, in
the order of `names`, cut after the first `MAX_FILES` of them; `file_count`
is the length of that list; neither `.` nor `..` is in it; and when more than
`MAX_FILES` names remain after the removal the list has exactly `MAX_FILES`
entries. -/
theorem scan_directory_reference (env : Env) (path : String) (names : List String) (s : State)
    (hopen : env.opendir path = some names) :
    (scan_directory env path s).files
        = (names.filter (fun e => decide (e ≠ "." ∧ e ≠ ".."))).take MAX_FILES
      ∧ (scan_directory env path s).file_count
        = (((names.filter (fun e => decide (e ≠ "." ∧ e ≠ ".."))).take MAX_FILES).length : Int)
      ∧ (scan_directory env path s).files.Sublist names
      ∧ "." ∉ (scan_directory env path s).files
      ∧ ".." ∉ (scan_directory env path s).files
      ∧ (MAX_FILES < (names.filter (fun e => decide (e ≠ "." ∧ e ≠ ".."))).length →
          (scan_directory env path s).file_count = 1024) := by
  have hf := scan_files env path names s hopen
  refine ⟨hf, ?_, ?_, (scan_no_dots env path s).1, (scan_no_dots env path s).2, ?_⟩
  · simp only [State.file_count, hf]
  · rw [hf]
    exact (List.take_sublist _ _).trans (List.filter_sublist _)
  · intro hmore
    simp only [State.file_count, hf, List.length_take]
    have : MAX_FILES = 1024 := rfl
    omega

theorem crowded_more :
    MAX_FILES < ((".." :: "." :: List.replicate 1030 "f").filter
      (fun e => decide (e ≠ "." ∧ e ≠ ".."))).length := by
  have h : (List.replicate 1030 "f").filter (fun e => decide (e ≠ "." ∧ e ≠ ".."))
      = List.replicate 1030 "f" := by
    rw [List.filter_eq_self]
    intro a ha
    rw [List.eq_of_mem_replicate ha]
    decide
  have h1 : decide ((".." : String) ≠ "." ∧ (".." : String) ≠ "..") = false := by decide
  have h2 : decide (("." : String) ≠ "." ∧ ("." : String) ≠ "..") = false := by decide
  rw [List.filter_cons_of_neg (by simp [h1]), List.filter_cons_of_neg (by simp [h2]), h,
    List.length_replicate]
  decide

theorem scan_directory_reference_witness :
    (demo_env.opendir "/home" = some [".", "..", "a.txt", "sub"]
      ∧ (scan_directory demo_env "/home" ⟨"/home", ["old"], 0⟩).files = ["a.txt", "sub"])
      ∧ (crowded_env.opendir "/big" = some (".." :: "." :: List.replicate 1030 "f")
        ∧ (scan_directory crowded_env "/big" ⟨"/big", [], 0⟩).file_count = 1024) :=
  ⟨⟨by decide,
    (scan_directory_reference demo_env "/home" [".", "..", "a.txt", "sub"]
      ⟨"/home", ["old"], 0⟩ (by decide)).1.trans (by decide)⟩,
   ⟨rfl,
    (scan_directory_reference crowded_env "/big" (".." :: "." :: List.replicate 1030 "f")
      ⟨"/big", [], 0⟩ rfl).2.2.2.2.2 crowded_more⟩⟩

/-! ## Navigation -/

theorem change_dir_eq (env : Env) (path : String) (s : State) :
    change_dir env path s
      = ⟨env.chdir_getcwd path, (scan_directory env (env.chdir_getcwd path) s).files, 0⟩ := by
  cases h : env.opendir (env.chdir_getcwd path) <;> simp [change_dir, scan_directory, h]

theorem inv_change_dir (env : Env) (path : String) (s : State) : Inv (change_dir env path s) := by
  rw [change_dir_eq]
  have hlen := scan_length_le env (env.chdir_getcwd path) s
  have hmax : MAX_FILES = 1024 := rfl
  refine ⟨le_refl _, ?_, ?_⟩
  · simp only [State.file_count]
    omega
  · intro hne
    simp only [State.file_count]
    have hpos : 0 < (scan_directory env (env.chdir_getcwd path) s).files.length :=
      List.length_pos.mpr hne
    omega

theorem inv_startup (env : Env) : Inv (startup env) := by
  have hlen := scan_length_le env env.getcwd ⟨env.getcwd, [], 0⟩
  have hfr := scan_frame env env.getcwd ⟨env.getcwd, [], 0⟩
  have hmax : MAX_FILES = 1024 := rfl
  unfold startup
  refine ⟨by rw [hfr.2], ?_, ?_⟩
  · simp only [State.file_count]
    omega
  · intro hne
    rw [hfr.2]
    simp only [State.file_count]
    have hpos := List.length_pos.mpr hne
    omega

theorem inv_navigate (env : Env) (key : Int) (s s1 : State) (hinv : Inv s)
    (hstep : (navigate env key s).out = .ok s1) : Inv s1 := by
  obtain ⟨h0, hcap, hsel⟩ := hinv
  unfold navigate at hstep
  split_ifs at hstep with hup hgt hdown hlt henter hback hq
  · cases hstep
    refine ⟨?_, hcap, ?_⟩
    · show 0 ≤ s.selected - 1
      omega
    · intro hne
      have := hsel hne
      show s.selected - 1 < s.file_count
      omega
  · cases hstep
    exact ⟨h0, hcap, hsel⟩
  · cases hstep
    refine ⟨?_, hcap, ?_⟩
    · show 0 ≤ s.selected + 1
      omega
    · intro _
      show s.selected + 1 < s.file_count
      omega
  · cases hstep
    exact ⟨h0, hcap, hsel⟩
  · cases hentry : s.entry with
    | none => simp [hentry] at hstep
    | some name =>
      simp only [hentry] at hstep
      cases hst : env.stat (make_path s.current_path name) with
      | none =>
        simp only [hst] at hstep
        cases hstep
        exact ⟨h0, hcap, hsel⟩
      | some st =>
        simp only [hst] at hstep
        split_ifs at hstep
        · cases hstep
          exact inv_change_dir env _ s
        · cases hstep
          exact ⟨h0, hcap, hsel⟩
  · cases hstep
    exact inv_change_dir env _ s
  · cases hstep
    exact ⟨h0, hcap, hsel⟩

theorem inv_run (events : List (Env × Int)) (s s1 : State) (hinv : Inv s)
    (hrun : run s events = .ok s1) : Inv s1 := by
  induction events generalizing s with
  | nil =>
    simp only [run] at hrun
    cases hrun
    exact hinv
  | cons ev rest ih =>
    obtain ⟨env, key⟩ := ev
    simp only [run] at hrun
    cases hout : (navigate env key s).out with
    | ok s2 =>
      rw [hout] at hrun
      exact ih s2 (inv_navigate env key s s2 hinv hout) hrun
    | exited => rw [hout] at hrun; cases hrun
    | oob => rw [hout] at hrun; cases hrun

/-- C1. Selection-bounds invariant: every state reached from startup by a
finite sequence of key events, each handled under arbitrary operating system
answers, has `0 ≤ selected`, `file_count ≤ 1024`, and `selected < file_count`
whenever the entry list is not empty. -/
theorem selection_bounds (env0 : Env) (events : List (Env × Int)) (s : State)
    (hrun : run (startup env0) events = .ok s) :
    0 ≤ s.selected ∧ s.file_count ≤ 1024 ∧ (s.files ≠ [] → s.selected < s.file_count) :=
  inv_run events (startup env0) s (inv_startup env0) hrun

theorem selection_bounds_witness :
    run (startup demo_env)
        [(demo_env, KEY_DOWN), (demo_env, KEY_DOWN), (demo_env, KEY_UP), (demo_env, 120),
         (demo_env, KEY_DOWN), (demo_env, KEY_ENTER), (demo_env, KEY_ENTER),
         (demo_env, KEY_BACKSPACE)]
        = .ok ⟨"/home", ["a.txt", "sub"], 0⟩
      ∧ ((0 : Int) ≤ 0 ∧ State.file_count ⟨"/home", ["a.txt", "sub"], 0⟩ ≤ 1024
          ∧ (["a.txt", "sub"] ≠ [] → (0 : Int) < State.file_count ⟨"/home", ["a.txt", "sub"], 0⟩)) :=
  ⟨by decide,
   selection_bounds demo_env
     [(demo_env, KEY_DOWN), (demo_env, KEY_DOWN), (demo_env, KEY_UP), (demo_env, 120),
      (demo_env, KEY_DOWN), (demo_env, KEY_ENTER), (demo_env, KEY_ENTER),
      (demo_env, KEY_BACKSPACE)]
     ⟨"/home", ["a.txt", "sub"], 0⟩ (by decide)⟩

theorem entry_none_empty (s : State) (hinv : Inv s) (hentry : s.entry = none) :
    s.files = [] := by
  obtain ⟨h0, _, hsel⟩ := hinv
  by_contra hne
  have hlt := hsel hne
  unfold State.entry at hentry
  rw [if_pos h0] at hentry
  have hge := List.get?_eq_none.mp hentry
  simp only [State.file_count] at hlt
  omega

/-- From a state that satisfies the invariant, `navigate` reads outside the
live slots only for Enter on an empty entry list. -/
theorem navigate_oob (env : Env) (key : Int) (s : State) (hinv : Inv s)
    (hoob : (navigate env key s).out = .oob) : key = KEY_ENTER ∧ s.files = [] := by
  have hkey : key = KEY_ENTER := by
    by_contra hne
    unfold navigate at hoob
    rw [if_neg hne] at hoob
    split_ifs at hoob
  refine ⟨hkey, ?_⟩
  cases hentry : s.entry with
  | none => exact entry_none_empty s hinv hentry
  | some name =>
    have hk1 : ¬ KEY_ENTER = KEY_UP := by decide
    have hk2 : ¬ KEY_ENTER = KEY_DOWN := by decide
    unfold navigate at hoob
    rw [hkey, if_neg hk1, if_neg hk2, if_pos rfl] at hoob
    simp only [hentry] at hoob
    cases hst : env.stat (make_path s.current_path name) with
    | none => simp [hst] at hoob
    | some st =>
      simp only [hst] at hoob
      split_ifs at hoob

/-- C5. For a state with `0 ≤ selected`: `KEY_UP` sets `selected` to
`max (selected - 1) 0`; `KEY_DOWN` sets it to
`min (selected + 1) (file_count - 1)` when the entry list is not empty and
`selected < file_count`; both leave the state unchanged when the list is
empty with `selected = 0`; and in every case both leave `current_path` and
the entry list unchanged and make no operating system call. -/
theorem move_clamped (env : Env) (s : State) (h0 : 0 ≤ s.selected) :
    (navigate env KEY_UP s).out = .ok ⟨s.current_path, s.files, max (s.selected - 1) 0⟩
      ∧ (s.files ≠ [] → s.selected < s.file_count →
          (navigate env KEY_DOWN s).out
            = .ok ⟨s.current_path, s.files, min (s.selected + 1) (s.file_count - 1)⟩)
      ∧ (s.files = [] → s.selected = 0 →
          (navigate env KEY_UP s).out = .ok s ∧ (navigate env KEY_DOWN s).out = .ok s)
      ∧ (∃ k, (navigate env KEY_DOWN s).out = .ok ⟨s.current_path, s.files, k⟩)
      ∧ (navigate env KEY_UP s).calls = [] ∧ (navigate env KEY_DOWN s).calls = [] := by
  obtain ⟨cp, fs, sel⟩ := s
  simp only at h0
  have hdu : ¬ KEY_DOWN = KEY_UP := by decide
  refine ⟨?_, ?_, ?_, ?_, ?_, ?_⟩
  · unfold navigate
    rw [if_pos rfl]
    by_cases hgt : sel > 0
    · simp only [hgt, if_true]
      rw [max_eq_left (by omega)]
    · simp only [hgt, if_false]
      have : sel = 0 := by omega
      subst this
      rfl
  · intro _ hlt
    unfold navigate
    rw [if_neg hdu, if_pos rfl]
    simp only [State.file_count] at hlt ⊢
    by_cases hl : sel < (fs.length : Int) - 1
    · simp only [hl, if_true]
      rw [min_eq_left (by omega)]
    · simp only [hl, if_false]
      rw [min_eq_right (by omega)]
      congr 2
      omega
  · intro hnil hsel
    simp only at hnil hsel
    subst hnil hsel
    constructor
    · unfold navigate
      rw [if_pos rfl]
      rfl
    · unfold navigate
      rw [if_neg hdu, if_pos rfl]
      rfl
  · unfold navigate
    rw [if_neg hdu, if_pos rfl]
    by_cases hl : sel < State.file_count ⟨cp, fs, sel⟩ - 1
    · exact ⟨sel + 1, by simp only [hl, if_true]⟩
    · exact ⟨sel, by simp only [hl, if_false]⟩
  · unfold navigate
    rw [if_pos rfl]
  · unfold navigate
    rw [if_neg hdu, if_pos rfl]

theorem move_clamped_witness :
    (0 : Int) ≤ 1
      ∧ (navigate demo_env KEY_UP ⟨"/home", ["a.txt", "sub"], 1⟩).out
          = .ok ⟨"/home", ["a.txt", "sub"], 0⟩
      ∧ (navigate demo_env KEY_DOWN ⟨"/home", ["a.txt", "sub"], 1⟩).out
          = .ok ⟨"/home", ["a.txt", "sub"], 1⟩
      ∧ (navigate demo_env KEY_UP ⟨"/tmp/void", [], 0⟩).out = .ok ⟨"/tmp/void", [], 0⟩
      ∧ (navigate demo_env KEY_DOWN ⟨"/tmp/void", [], 0⟩).out = .ok ⟨"/tmp/void", [], 0⟩ :=
  ⟨by decide,
   (move_clamped demo_env ⟨"/home", ["a.txt", "sub"], 1⟩ (by decide)).1.trans (by decide),
   ((move_clamped demo_env ⟨"/home", ["a.txt", "sub"], 1⟩ (by decide)).2.1
      (by decide) (by decide)).trans (by decide),
   ((move_clamped demo_env ⟨"/tmp/void", [], 0⟩ (by decide)).2.2.1 rfl rfl).1,
   ((move_clamped demo_env ⟨"/tmp/void", [], 0⟩ (by decide)).2.2.1 rfl rfl).2⟩

theorem make_path_fits (dir name : String) (hfit : (dir ++ "/" ++ name).length < MAX_PATH) :
    make_path dir name = dir ++ "/" ++ name := by
  unfold make_path snprintf_text
  have hlen : (dir ++ "/" ++ name).data.length ≤ MAX_PATH - 1 := by
    have : (dir ++ "/" ++ name).length = (dir ++ "/" ++ name).data.length := rfl
    omega
  rw [List.take_of_length_le hlen]

/-- The candidate path always fits `path[MAX_PATH]` with its terminator. -/
theorem make_path_length (dir name : String) : (make_path dir name).length < MAX_PATH := by
  unfold make_path snprintf_text
  simp only [String.length_mk, List.length_take]
  have : MAX_PATH = 4096 := rfl
  omega

/-- C2. Enter on a directory.  Let `name` be `files[selected]` and let the
candidate path be what `snprintf` leaves in `path[MAX_PATH]` for
`current_path`, a slash and `name`.  When `stat` succeeds on it with a
directory mode, `navigate(KEY_ENTER)` returns with `selected = 0`,
`current_path` equal to what `getcwd` reports after the `chdir`, and the entry
list equal to what `scan_directory` yields for that new path, which holds
neither `.` nor `..`; the calls made are `stat`, `chdir`, `getcwd`, `opendir`.
The candidate path is `current_path ++ "/" ++ name` itself whenever that text
is shorter than `MAX_PATH`. -/
theorem enter_directory (env : Env) (s : State) (name : String) (st : Stat)
    (hentry : s.entry = some name)
    (hstat : env.stat (make_path s.current_path name) = some st)
    (hdir : S_ISDIR st.st_mode = true) :
    (navigate env KEY_ENTER s).out
        = .ok ⟨env.chdir_getcwd (make_path s.current_path name),
            (scan_directory env (env.chdir_getcwd (make_path s.current_path name)) s).files, 0⟩
      ∧ "." ∉ (scan_directory env (env.chdir_getcwd (make_path s.current_path name)) s).files
      ∧ ".." ∉ (scan_directory env (env.chdir_getcwd (make_path s.current_path name)) s).files
      ∧ (navigate env KEY_ENTER s).calls
        = [.stat (make_path s.current_path name), .chdir (make_path s.current_path name),
            .getcwd, .opendir (env.chdir_getcwd (make_path s.current_path name))]
      ∧ ((s.current_path ++ "/" ++ name).length < MAX_PATH →
          make_path s.current_path name = s.current_path ++ "/" ++ name) := by
  have hk1 : ¬ KEY_ENTER = KEY_UP := by decide
  have hk2 : ¬ KEY_ENTER = KEY_DOWN := by decide
  have hnav : navigate env KEY_ENTER s
      = ⟨.ok (change_dir env (make_path s.current_path name) s),
          .stat (make_path s.current_path name)
            :: change_dir_calls env (make_path s.current_path name)⟩ := by
    unfold navigate
    rw [if_neg hk1, if_neg hk2, if_pos rfl]
    simp only [hentry, hstat, hdir, if_true]
  refine ⟨?_, (scan_no_dots env _ s).1, (scan_no_dots env _ s).2, ?_,
    make_path_fits s.current_path name⟩
  · rw [hnav, change_dir_eq]
  · rw [hnav]
    rfl

theorem enter_directory_witness :
    (make_path "/home" "sub" = "/home" ++ "/" ++ "sub")
      ∧ (navigate demo_env KEY_DOWN ⟨"/home", ["a.txt", "sub"], 0⟩).out
          = .ok ⟨"/home", ["a.txt", "sub"], 1⟩
      ∧ State.entry ⟨"/home", ["a.txt", "sub"], 1⟩ = some "sub"
      ∧ demo_env.stat (make_path "/home" "sub") = some ⟨4096, 0o040755, 0, 1000, 1000⟩
      ∧ S_ISDIR 0o040755 = true
      ∧ demo_env.opendir "/home/sub" = some [".", "..", "x"]
      ∧ (navigate demo_env KEY_ENTER ⟨"/home", ["a.txt", "sub"], 1⟩).out
          = .ok ⟨"/home/sub", ["x"], 0⟩ :=
  ⟨by decide, by decide, by decide, by decide, by decide, by decide,
   (enter_directory demo_env ⟨"/home", ["a.txt", "sub"], 1⟩ "sub" ⟨4096, 0o040755, 0, 1000, 1000⟩
      (by decide) (by decide) (by decide)).1.trans (by decide)⟩

/-- Enter when the path that was built is not a directory.  Let `name` be
`files[selected]` and take the text `snprintf` leaves in `path[MAX_PATH]`.
When `stat` fails on that text or reports a mode that is not a directory,
`navigate(KEY_ENTER)` returns with `current_path`, the entry list and
`selected` unchanged, and the only operating system call made is that `stat`.
The text is `current_path ++ "/" ++ name` itself whenever that is shorter than
`MAX_PATH`; a longer one is cut, and the cut text is what `stat` sees. -/
theorem enter_non_directory (env : Env) (s : State) (name : String)
    (hentry : s.entry = some name)
    (hnd : (env.stat (make_path s.current_path name)).map (fun st => S_ISDIR st.st_mode)
            ≠ some true) :
    (navigate env KEY_ENTER s).out = .ok s
      ∧ (navigate env KEY_ENTER s).calls = [.stat (make_path s.current_path name)]
      ∧ ((s.current_path ++ "/" ++ name).length < MAX_PATH →
          make_path s.current_path name = s.current_path ++ "/" ++ name) := by
  have hk1 : ¬ KEY_ENTER = KEY_UP := by decide
  have hk2 : ¬ KEY_ENTER = KEY_DOWN := by decide
  refine (and_assoc).mp ⟨?_, make_path_fits s.current_path name⟩
  unfold navigate
  rw [if_neg hk1, if_neg hk2, if_pos rfl]
  simp only [hentry]
  cases hst : env.stat (make_path s.current_path name) with
  | none => exact ⟨rfl, rfl⟩
  | some st =>
    rw [hst] at hnd
    have hfalse : S_ISDIR st.st_mode = false := by
      cases hd : S_ISDIR st.st_mode with
      | false => rfl
      | true => simp [hd] at hnd
    simp only [hfalse]
    exact ⟨rfl, rfl⟩

theorem enter_non_directory_sample :
    (State.entry ⟨"/home", ["a.txt", "sub"], 0⟩ = some "a.txt"
      ∧ (demo_env.stat (make_path "/home" "a.txt")).map (fun st => S_ISDIR st.st_mode)
          = some false
      ∧ (navigate demo_env KEY_ENTER ⟨"/home", ["a.txt", "sub"], 0⟩).out
          = .ok ⟨"/home", ["a.txt", "sub"], 0⟩
      ∧ (navigate demo_env KEY_ENTER ⟨"/home", ["a.txt", "sub"], 0⟩).calls
          = [.stat "/home/a.txt"])
      ∧ (State.entry ⟨"/home/sub", ["x"], 0⟩ = some "x"
        ∧ demo_env.stat (make_path "/home/sub" "x") = none
        ∧ (navigate demo_env KEY_ENTER ⟨"/home/sub", ["x"], 0⟩).out
            = .ok ⟨"/home/sub", ["x"], 0⟩) :=
  ⟨⟨by decide, by decide,
    (enter_non_directory demo_env ⟨"/home", ["a.txt", "sub"], 0⟩ "a.txt"
      (by decide) (by decide)).1,
    (enter_non_directory demo_env ⟨"/home", ["a.txt", "sub"], 0⟩ "a.txt"
      (by decide) (by decide)).2.1.trans (by decide)⟩,
   ⟨by decide, by decide,
    (enter_non_directory demo_env ⟨"/home/sub", ["x"], 0⟩ "x" (by decide) (by decide)).1⟩⟩

theorem entry_nil (cp : String) (sel : Int) : State.entry ⟨cp, [], sel⟩ = none := by
  unfold State.entry
  split_ifs <;> simp

/-- C6. With an empty entry list the emptiness check is missing: started in a
directory that holds only the two pseudo-entries, the entry list is empty,
and for every state with an empty list both `navigate(KEY_ENTER)` and
`draw_ui` read `files[selected]` outside `[0, file_count)`. -/
theorem empty_list_reads_out_of_range :
    startup empty_env = ⟨"/tmp/void", [], 0⟩
      ∧ ∀ (env : Env) (junk : Nat → Char) (height : Int) (cp : String) (sel : Int),
          (navigate env KEY_ENTER ⟨cp, [], sel⟩).out = .oob
            ∧ draw_ui env junk height ⟨cp, [], sel⟩ = .oob := by
  refine ⟨by decide, ?_⟩
  intro env junk height cp sel
  have hk1 : ¬ KEY_ENTER = KEY_UP := by decide
  have hk2 : ¬ KEY_ENTER = KEY_DOWN := by decide
  constructor
  · unfold navigate
    rw [if_neg hk1, if_neg hk2, if_pos rfl]
    simp only [entry_nil]
  · unfold draw_ui
    simp only [entry_nil]

/-- C7, as stated, fails: after a scan of a path that cannot be opened the
previous entry list is gone, and a parent change whose scan fails also resets
the selected index. -/
theorem scan_failure_not_intact :
    dead_env.opendir "/gone" = none
      ∧ (scan_directory dead_env "/gone" ⟨"/home", ["a.txt", "sub"], 1⟩).files
          ≠ ["a.txt", "sub"]
      ∧ (navigate dead_env KEY_BACKSPACE ⟨"/home", ["a.txt", "sub"], 1⟩).out
          = .ok ⟨"/gone", [], 0⟩ := by
  refine ⟨by decide, by decide, by decide⟩

/-- C7, amended. When `opendir(path)` fails, `scan_directory(path)` leaves an
empty entry list (`file_count = 0`) and does not touch `current_path` or
`selected`; a parent change or an Enter on a directory whose `getcwd` result
is `path` returns with `current_path = path`, an empty entry list and
`selected = 0`. -/
theorem scan_failure_clears (env : Env) (path : String) (s : State)
    (hfail : env.opendir path = none) :
    scan_directory env path s = ⟨s.current_path, [], s.selected⟩
      ∧ (scan_directory env path s).file_count = 0
      ∧ (env.chdir_getcwd (make_path s.current_path "..") = path →
          (navigate env KEY_BACKSPACE s).out = .ok ⟨path, [], 0⟩)
      ∧ (∀ name st, s.entry = some name →
          env.stat (make_path s.current_path name) = some st → S_ISDIR st.st_mode = true →
          env.chdir_getcwd (make_path s.current_path name) = path →
          (navigate env KEY_ENTER s).out = .ok ⟨path, [], 0⟩) := by
  have hscan : ∀ t : State, scan_directory env path t = ⟨t.current_path, [], t.selected⟩ := by
    intro t
    unfold scan_directory
    rw [hfail]
  have hk1 : ¬ KEY_ENTER = KEY_UP := by decide
  have hk2 : ¬ KEY_ENTER = KEY_DOWN := by decide
  have hb1 : ¬ KEY_BACKSPACE = KEY_UP := by decide
  have hb2 : ¬ KEY_BACKSPACE = KEY_DOWN := by decide
  have hb3 : ¬ KEY_BACKSPACE = KEY_ENTER := by decide
  refine ⟨hscan s, ?_, ?_, ?_⟩
  · rw [hscan s]
    rfl
  · intro hcwd
    unfold navigate
    rw [if_neg hb1, if_neg hb2, if_neg hb3, if_pos rfl]
    simp only [change_dir_eq, hcwd, hscan s]
  · intro name st hentry hstat hdir hcwd
    unfold navigate
    rw [if_neg hk1, if_neg hk2, if_pos rfl]
    simp only [hentry, hstat, hdir, if_true, change_dir_eq, hcwd, hscan s]

theorem scan_failure_clears_witness :
    dead_env.opendir "/gone" = none
      ∧ scan_directory dead_env "/gone" ⟨"/home", ["a.txt", "sub"], 1⟩ = ⟨"/home", [], 1⟩
      ∧ (navigate dead_env KEY_BACKSPACE ⟨"/home", ["a.txt", "sub"], 1⟩).out
          = .ok ⟨"/gone", [], 0⟩
      ∧ locked_env.opendir "/home/priv" = none
      ∧ (navigate locked_env KEY_ENTER ⟨"/home", ["a.txt", "priv"], 1⟩).out
          = .ok ⟨"/home/priv", [], 0⟩ :=
  ⟨by decide,
   (scan_failure_clears dead_env "/gone" ⟨"/home", ["a.txt", "sub"], 1⟩ (by decide)).1,
   (scan_failure_clears dead_env "/gone" ⟨"/home", ["a.txt", "sub"], 1⟩ (by decide)).2.2.1
      (by decide),
   by decide,
   (scan_failure_clears locked_env "/home/priv" ⟨"/home", ["a.txt", "priv"], 1⟩
      (by decide)).2.2.2 "priv" ⟨4096, 0o040311, 0, 0, 0⟩ (by decide) (by decide) (by decide)
      (by decide)⟩

/-- C10. Ascend at the root.  In a filesystem where the working directory
after `chdir` to the parent of the root is the root, for every state with
`current_path = "/"`, `navigate(KEY_BACKSPACE)` returns with
`current_path = "/"`, `selected = 0` and the entry list that a scan of `/`
yields, and a second `navigate(KEY_BACKSPACE)` returns the same state again;
and where `getcwd` only reports the root or descendants of the root, an
Ascend from any state leaves such a path in `current_path`. -/
theorem ascend_at_root (env : Env) (s : State)
    (hroot : s.current_path = "/")
    (hstay : env.chdir_getcwd (make_path "/" "..") = "/") :
    (navigate env KEY_BACKSPACE s).out = .ok ⟨"/", (scan_directory env "/" s).files, 0⟩
      ∧ (∀ s1, (navigate env KEY_BACKSPACE s).out = .ok s1 →
          (navigate env KEY_BACKSPACE s1).out = .ok s1)
      ∧ ((∀ p, under_root (env.chdir_getcwd p) = true) →
          ∀ t : State, ∃ t1, (navigate env KEY_BACKSPACE t).out = .ok t1
            ∧ under_root t1.current_path = true) := by
  have hb1 : ¬ KEY_BACKSPACE = KEY_UP := by decide
  have hb2 : ¬ KEY_BACKSPACE = KEY_DOWN := by decide
  have hb3 : ¬ KEY_BACKSPACE = KEY_ENTER := by decide
  have hnav : ∀ t : State, (navigate env KEY_BACKSPACE t).out
      = .ok (change_dir env (make_path t.current_path "..") t) := by
    intro t
    unfold navigate
    rw [if_neg hb1, if_neg hb2, if_neg hb3, if_pos rfl]
  have hfiles : ∀ (p : String) (t u : State),
      (scan_directory env p t).files = (scan_directory env p u).files := by
    intro p t u
    unfold scan_directory
    cases env.opendir p <;> rfl
  have hfirst : (navigate env KEY_BACKSPACE s).out
      = .ok ⟨"/", (scan_directory env "/" s).files, 0⟩ := by
    rw [hnav s, change_dir_eq, hroot, hstay]
  refine ⟨hfirst, ?_, ?_⟩
  · intro s1 h1
    rw [hfirst] at h1
    cases h1
    rw [hnav, change_dir_eq]
    simp only [hstay]
    rw [hfiles "/" _ s]
  · intro hcanon t
    refine ⟨change_dir env (make_path t.current_path "..") t, hnav t, ?_⟩
    rw [change_dir_eq]
    exact hcanon _

theorem demo_env_canonical (p : String) : under_root (demo_env.chdir_getcwd p) = true := by
  simp only [demo_env]
  split_ifs <;> decide

theorem ascend_at_root_witness :
    demo_env.chdir_getcwd (make_path "/" "..") = "/"
      ∧ (navigate demo_env KEY_BACKSPACE ⟨"/", ["home"], 0⟩).out = .ok ⟨"/", ["home"], 0⟩
      ∧ (navigate demo_env KEY_BACKSPACE ⟨"/", ["stale"], 0⟩).out = .ok ⟨"/", ["home"], 0⟩
      ∧ (∃ t1, (navigate demo_env KEY_BACKSPACE ⟨"/home/sub", ["x"], 0⟩).out = .ok t1
          ∧ under_root t1.current_path = true) :=
  ⟨by decide,
   (ascend_at_root demo_env ⟨"/", ["stale"], 0⟩ rfl (by decide)).2.1 ⟨"/", ["home"], 0⟩
      (by decide),
   (ascend_at_root demo_env ⟨"/", ["stale"], 0⟩ rfl (by decide)).1.trans (by decide),
   (ascend_at_root demo_env ⟨"/", ["stale"], 0⟩ rfl (by decide)).2.2 demo_env_canonical
      ⟨"/home/sub", ["x"], 0⟩⟩

/-! ## Formatter -/

theorem holds_shorter (m : Mem) (l r : List Char) (h : m.Holds (l ++ r)) : m.Holds l := by
  intro i hi
  have h1 := h i (by simp; omega)
  rw [h1, List.getD_append l r NUL i hi]

theorem holds_read (m : Mem) (l : List Char) (h : m.Holds l) : m.read 0 l.length = l := by
  apply List.ext_getElem
  · simp [Mem.read]
  · intro i h1 h2
    simp only [Mem.read, List.getElem_map, List.getElem_range, Nat.zero_add]
    rw [h i h2, List.getD_eq_getElem l NUL h2]

theorem snprintf_holds (m : Mem) (pre : List Char) (t : String) (buflen : Nat)
    (hpre : m.Holds pre) (hfit : t.length < buflen) :
    (snprintf m pre.length buflen t).1.Holds (pre ++ t.data ++ [NUL])
      ∧ (snprintf m pre.length buflen t).2 = t.length := by
  have hne : ¬ buflen = 0 := by omega
  have htake : t.data.take (buflen - 1) = t.data := by
    apply List.take_of_length_le
    have : t.length = t.data.length := rfl
    omega
  unfold snprintf
  rw [if_neg hne, htake]
  refine ⟨?_, rfl⟩
  intro i hi
  simp only [Mem.store]
  by_cases hlow : i < pre.length
  · have hc : ¬ (pre.length ≤ i ∧ i < pre.length + (t.data ++ [NUL]).length) := by omega
    rw [if_neg hc, hpre i hlow, List.append_assoc, List.getD_append pre _ NUL i hlow]
  · have hi2 : i < pre.length + (t.data ++ [NUL]).length := by
      simp only [List.length_append] at hi ⊢
      omega
    have hc : pre.length ≤ i ∧ i < pre.length + (t.data ++ [NUL]).length := ⟨by omega, hi2⟩
    rw [if_pos hc, List.append_assoc, List.getD_append_right pre _ NUL i (by omega)]

theorem emit_holds (buflen : Nat) (r : Mem × Nat) (pre : List Char) (t : String)
    (hidx : r.2 = pre.length) (hpre : r.1.Holds pre) (hfit : t.length < buflen) :
    (emit buflen r t).2 = (pre ++ t.data).length
      ∧ (emit buflen r t).1.Holds (pre ++ t.data)
      ∧ (emit buflen r t).1.Holds (pre ++ t.data ++ [NUL]) := by
  have h := snprintf_holds r.1 pre t buflen hpre hfit
  unfold emit
  rw [hidx]
  refine ⟨?_, holds_shorter _ _ [NUL] h.1, h.1⟩
  rw [h.2, List.length_append]
  rfl

theorem full_text_some (env : Env) (path : String) (st : Stat) (hst : env.stat path = some st) :
    full_text env path
      = line_size st ++ line_perm st ++ line_mtime env st ++ line_uid st ++ line_gid st
          ++ line_dir st := by
  unfold full_text
  rw [hst]

theorem get_file_info_holds (env : Env) (path : String) (m : Mem) (buflen : Nat)
    (hfit : (full_text env path).length < buflen) :
    (get_file_info env path m buflen).1.Holds ((full_text env path).data ++ [NUL]) := by
  have hnil : m.Holds [] := by
    intro i hi
    simp at hi
  cases hst : env.stat path with
  | none =>
    have htext : full_text env path = "Error retrieving info" := by
      unfold full_text
      rw [hst]
    rw [htext] at hfit ⊢
    unfold get_file_info
    rw [hst]
    have h := (snprintf_holds m [] "Error retrieving info" buflen hnil hfit).1
    simpa using h
  | some st =>
    have htext := full_text_some env path st hst
    rw [htext] at hfit ⊢
    simp only [String.length_append] at hfit
    unfold get_file_info
    rw [hst]
    have h1 := emit_holds buflen (m, 0) [] (line_size st) rfl hnil (by omega)
    have h2 := emit_holds buflen _ _ (line_perm st) h1.1 h1.2.1 (by omega)
    have h3 := emit_holds buflen _ _ (line_mtime env st) h2.1 h2.2.1 (by omega)
    have h4 := emit_holds buflen _ _ (line_uid st) h3.1 h3.2.1 (by omega)
    have h5 := emit_holds buflen _ _ (line_gid st) h4.1 h4.2.1 (by omega)
    have h6 := emit_holds buflen _ _ (line_dir st) h5.1 h5.2.1 (by omega)
    simpa using h6.2.2

theorem line_dir_yes (st : Stat) : line_dir st = "Is Directory: Yes\n" ↔ S_ISDIR st.st_mode = true := by
  unfold line_dir
  cases S_ISDIR st.st_mode
  · simp only [Bool.false_eq_true, if_false, iff_false]
    decide
  · simp only [if_true, iff_true]
    decide

theorem line_dir_no (st : Stat) : line_dir st = "Is Directory: No\n" ↔ S_ISDIR st.st_mode = false := by
  unfold line_dir
  cases S_ISDIR st.st_mode
  · simp only [Bool.false_eq_true, if_false, iff_true]
    decide
  · simp only [if_true, Bool.true_eq_false, iff_false]
    decide

/-- C8. The size handed to every `snprintf` is `buflen`, not what is left of
the buffer: for a regular file of 12 bytes and `buflen = 20` the second and
later calls store bytes beyond offset 20 (up to offset 121), and the final
`index` is 121. -/
theorem formatter_writes_past_buffer :
    demo_env.stat "/home/a.txt" = some ⟨12, 0o100644, 0, 1000, 1000⟩
      ∧ (get_file_info demo_env "/home/a.txt" blank 20).1.hi = 122
      ∧ (get_file_info demo_env "/home/a.txt" blank 20).2 = 121
      ∧ 20 < (get_file_info demo_env "/home/a.txt" blank 20).1.hi
      ∧ 20 < (get_file_info demo_env "/home/a.txt" blank 20).2
      ∧ (get_file_info demo_env "/home/a.txt" blank 20).1.read 15 16
          = "Permissions: 644".data := by
  refine ⟨by decide, by decide, by decide, by decide, by decide, by decide⟩

/-- C9, as stated, fails for the failure text: with `buflen = 5` and a
failing `stat` the buffer holds `Erro` and the terminator, not the whole
text. -/
theorem formatter_error_text_cut :
    dead_env.stat "/x" = none
      ∧ (get_file_info dead_env "/x" blank 5).1.read 0 5 = "Erro".data ++ [NUL]
      ∧ (get_file_info dead_env "/x" blank 5).1.read 0 22
          ≠ "Error retrieving info".data ++ [NUL] := by
  refine ⟨by decide, by decide, by decide⟩

/-- C9, amended. When the whole text is shorter than `buflen`, the buffer
holds exactly that text followed by the terminator.  The whole text is
`Error retrieving info` when `stat` fails; when `stat` succeeds it is the six
fields in the order size, permissions (octal of `st_mode & 0777`),
last-modified, owner UID, owner GID, directory flag, where the last line is
`Is Directory: Yes` exactly when `S_ISDIR(st_mode)` and `Is Directory: No`
otherwise, and every field is a line of its own as soon as the `ctime` text
ends with a newline. -/
theorem formatter_reference (env : Env) (path : String) (m : Mem) (buflen : Nat)
    (hfit : (full_text env path).length < buflen) :
    (get_file_info env path m buflen).1.read 0 ((full_text env path).length + 1)
        = (full_text env path).data ++ [NUL]
      ∧ (env.stat path = none → full_text env path = "Error retrieving info")
      ∧ (∀ st, env.stat path = some st →
          full_text env path
              = ("Size: " ++ fmt_d st.st_size ++ " bytes\n")
                ++ ("Permissions: " ++ fmt_o (st.st_mode &&& 0o777) ++ "\n")
                ++ ("Last modified: " ++ env.ctime st.st_mtime)
                ++ ("Owner UID: " ++ fmt_d (as_int st.st_uid) ++ "\n")
                ++ ("Owner GID: " ++ fmt_d (as_int st.st_gid) ++ "\n")
                ++ ("Is Directory: " ++ (if S_ISDIR st.st_mode then "Yes" else "No") ++ "\n")
            ∧ (line_dir st = "Is Directory: Yes\n" ↔ S_ISDIR st.st_mode = true)
            ∧ (line_dir st = "Is Directory: No\n" ↔ S_ISDIR st.st_mode = false)
            ∧ ∀ stamp, env.ctime st.st_mtime = stamp ++ "\n" →
                full_text env path
                  = String.join (List.map (fun l => l ++ "\n")
                      ["Size: " ++ fmt_d st.st_size ++ " bytes",
                       "Permissions: " ++ fmt_o (st.st_mode &&& 0o777),
                       "Last modified: " ++ stamp,
                       "Owner UID: " ++ fmt_d (as_int st.st_uid),
                       "Owner GID: " ++ fmt_d (as_int st.st_gid),
                       "Is Directory: " ++ (if S_ISDIR st.st_mode then "Yes" else "No")])) := by
  refine ⟨?_, ?_, ?_⟩
  · have h := holds_read _ _ (get_file_info_holds env path m buflen hfit)
    simpa using h
  · intro hst
    unfold full_text
    rw [hst]
  · intro st hst
    have htext := full_text_some env path st hst
    refine ⟨?_, line_dir_yes st, line_dir_no st, ?_⟩
    · rw [htext]
      rfl
    · intro stamp hstamp
      rw [htext]
      simp only [line_size, line_perm, line_mtime, line_uid, line_gid, line_dir, hstamp,
        String.join, List.map, List.foldl, String.append_assoc]
      rfl

theorem formatter_reference_witness :
    ((full_text demo_env "/home/a.txt").length < 256
      ∧ full_text demo_env "/home/a.txt"
          = "Size: 12 bytes\nPermissions: 644\nLast modified: Thu Jan  1 00:00:00 1970\n"
              ++ "Owner UID: 1000\nOwner GID: 1000\nIs Directory: No\n"
      ∧ (get_file_info demo_env "/home/a.txt" blank 256).1.read 0
            ((full_text demo_env "/home/a.txt").length + 1)
          = (full_text demo_env "/home/a.txt").data ++ [NUL])
      ∧ ((full_text dead_env "/x").length < 22
        ∧ full_text dead_env "/x" = "Error retrieving info"
        ∧ (get_file_info dead_env "/x" blank 22).1.read 0 ((full_text dead_env "/x").length + 1)
            = (full_text dead_env "/x").data ++ [NUL]) :=
  ⟨⟨by decide, by decide, (formatter_reference demo_env "/home/a.txt" blank 256 (by decide)).1⟩,
   ⟨by decide, by decide, (formatter_reference dead_env "/x" blank 22 (by decide)).1⟩⟩

/-! ## Enter with a candidate path longer than the buffer -/

theorem enter_changes_dir (env : Env) (s : State) (name : String) (st : Stat)
    (hentry : s.entry = some name)
    (hstat : env.stat (make_path s.current_path name) = some st)
    (hdir : S_ISDIR st.st_mode = true) :
    navigate env KEY_ENTER s
      = ⟨.ok (change_dir env (make_path s.current_path name) s),
          .stat (make_path s.current_path name)
            :: change_dir_calls env (make_path s.current_path name)⟩ := by
  have hk1 : ¬ KEY_ENTER = KEY_UP := by decide
  have hk2 : ¬ KEY_ENTER = KEY_DOWN := by decide
  unfold navigate
  rw [if_neg hk1, if_neg hk2, if_pos rfl]
  simp only [hentry, hstat, hdir, if_true]

theorem long_dirs_length : long_dirs.length = 4080 := by
  simp only [long_dirs, List.length_flatten, List.map_replicate, List.sum_replicate,
    List.length_cons, List.length_replicate, smul_eq_mul]

theorem long_cwd_length : long_cwd.length = 4086 := by
  have h : "/vault".data.length = 6 := by decide
  simp only [long_cwd, String.length_mk, List.length_append, long_dirs_length, h]

theorem long_cut_length : (long_cwd ++ "/readme.t").length = 4095 := by
  have h : "/readme.t".length = 9 := by decide
  rw [String.length_append, long_cwd_length, h]

theorem long_full_length : (long_cwd ++ "/" ++ "readme.txt").length = 4097 := by
  have h1 : "/".length = 1 := by decide
  have h2 : "readme.txt".length = 10 := by decide
  rw [String.length_append, String.length_append, long_cwd_length, h1, h2]

theorem long_cut : make_path long_cwd "readme.txt" = long_cwd ++ "/readme.t" := by
  unfold make_path snprintf_text
  have hd : (long_cwd ++ "/" ++ "readme.txt").data = (long_cwd ++ "/readme.t").data ++ "xt".data := by
    simp only [String.data_append]
    rw [List.append_assoc, List.append_assoc]
    congr 1
  have hl : (long_cwd ++ "/readme.t").data.length = MAX_PATH - 1 := long_cut_length
  rw [hd, List.take_left' hl]

theorem long_cut_ne : ¬ long_cwd = long_cwd ++ "/readme.t" := by
  intro h
  have hlen := congrArg String.length h
  rw [long_cwd_length, long_cut_length] at hlen
  omega

/-- C3. Enter on a non-directory with a candidate path that does not fit
`path[MAX_PATH]`: the working directory name is 4086 characters long and the
regular file `readme.txt` is selected, next to a directory `readme.t`.  The
candidate path `current_path ++ "/" ++ "readme.txt"` has 4097 characters and
`stat` fails on it, yet `snprintf` cuts it to the 4095 characters that name
`readme.t`, and `navigate(KEY_ENTER)` changes into that directory: the path,
the entry list and `selected` all change, after a `chdir` and a scan. -/
theorem enter_follows_cut_path :
    startup long_env = ⟨long_cwd, ["readme.txt", "readme.t"], 0⟩
      ∧ State.entry ⟨long_cwd, ["readme.txt", "readme.t"], 0⟩ = some "readme.txt"
      ∧ (long_cwd ++ "/" ++ "readme.txt").length = 4097
      ∧ long_env.stat (long_cwd ++ "/" ++ "readme.txt") = none
      ∧ make_path long_cwd "readme.txt" = long_cwd ++ "/readme.t"
      ∧ (navigate long_env KEY_ENTER ⟨long_cwd, ["readme.txt", "readme.t"], 0⟩).out
          = .ok ⟨long_cwd ++ "/readme.t", ["inner"], 0⟩
      ∧ (navigate long_env KEY_ENTER ⟨long_cwd, ["readme.txt", "readme.t"], 0⟩).calls
          = [.stat (long_cwd ++ "/readme.t"), .chdir (long_cwd ++ "/readme.t"), .getcwd,
              .opendir (long_cwd ++ "/readme.t")] := by
  have hentry : State.entry ⟨long_cwd, ["readme.txt", "readme.t"], 0⟩ = some "readme.txt" := rfl
  have hstat : long_env.stat (long_cwd ++ "/readme.t") = some ⟨4096, 0o040755, 0, 1000, 1000⟩ := by
    have hlt : ¬ MAX_PATH ≤ (long_cwd ++ "/readme.t").length := by
      rw [long_cut_length]
      decide
    simp only [long_env]
    rw [if_neg hlt]
    simp only [if_true]
  have hcwd : long_env.chdir_getcwd (long_cwd ++ "/readme.t") = long_cwd ++ "/readme.t" := by
    simp only [long_env, if_true]
  have hloop1 : scan_loop [".", "..", "inner"] [] = ["inner"] := by decide
  have hloop2 : scan_loop [".", "..", "readme.txt", "readme.t"] [] = ["readme.txt", "readme.t"] := by
    decide
  have hnav := enter_changes_dir long_env ⟨long_cwd, ["readme.txt", "readme.t"], 0⟩ "readme.txt"
    ⟨4096, 0o040755, 0, 1000, 1000⟩ hentry (by rw [long_cut]; exact hstat) (by decide)
  simp only [long_cut] at hnav
  refine ⟨?_, hentry, long_full_length, ?_, long_cut, ?_, ?_⟩
  · unfold startup scan_directory
    simp only [long_env]
    rw [if_neg long_cut_ne]
    simp only [if_true, hloop2]
  · have hge : MAX_PATH ≤ (long_cwd ++ "/" ++ "readme.txt").length := by
      rw [long_full_length]
      decide
    simp only [long_env]
    rw [if_pos hge]
  · rw [hnav, change_dir_eq, hcwd]
    unfold scan_directory
    simp only [long_env, if_true, hloop1]
  · rw [hnav]
    simp only [change_dir_calls, hcwd]

end FileBrowser
